import Mathlib

/-!
Verification of the plate-solve result pipeline of astro-tools
(src/astroprobe.py) against its specification.

The Python source is shallowly embedded as executable Lean definitions:

* the regular-expression extractions of `parse_buf` and `solve_image`
  are embedded through a small executable matcher (`mseq` / `msearch` /
  `mfindall`) over `List Char`, with each Python pattern transcribed as a
  `List Atom`; the matcher implements Python `re` semantics for the
  fragment the source uses (leftmost match, greedy quantifier with
  backtracking, `.` not matching a newline, non-overlapping `findall`);
* Python floats are modelled exactly: every float value the pipeline
  produces is a decimal, carried as a scaled integer (`Dec`, an integer
  mantissa over a power of ten, with `Dec.val : Dec → ℚ` giving its
  rational value); `round(x, n)` is modelled as exact decimal
  round-half-to-even (`pyRoundDec`);
* Python exceptions are modelled by `Except PyErr`: a raised exception is
  an `Except.error`, a caught one is handled at its `try`/`except` site;
* the subprocess launch, the FITS-header read and the transcript read of
  `main` are oracles collected in an `Env` record, so that control flow
  (which errors are caught where, what the batch loop does) is exactly
  the source's;
* the temporary working directory of `solve_image` is a list of files,
  each carrying a flag saying whether `os.unlink` succeeds on it.
-/

/-- Python exception classes that the embedded code can raise.
`fileNotFoundError` stands for the error `subprocess.run` raises when the
solver binary cannot be started; `osError` for a failed FITS-header read. -/
inductive PyErr where
  | attributeError
  | valueError
  | keyError
  | osError
  | fileNotFoundError
deriving DecidableEq, Repr

/-- Whitespace for Python's `\S` character class: space, tab, newline,
carriage return, vertical tab, form feed. -/
def isPySpace (c : Char) : Bool :=
  c = ' ' || c = '\t' || c = '\n' || c = '\r' || c = '\x0b' || c = '\x0c'

/-- The character classes appearing in the source's regular expressions. -/
inductive CC where
  | digitDot       -- [0-9.]
  | digitDotDash   -- [0-9.-]
  | digit          -- \d
  | anyNoNl        -- .  (any character except newline)
  | nonSpace       -- \S
  | lowerDigitDash -- [a-z0-9-]
  | tT             -- [Tt]
deriving DecidableEq, Repr

def ccMem : CC → Char → Bool
  | CC.digitDot, c => c.isDigit || c = '.'
  | CC.digitDotDash, c => c.isDigit || c = '.' || c = '-'
  | CC.digit, c => c.isDigit
  | CC.anyNoNl, c => c ≠ '\n'
  | CC.nonSpace, c => !isPySpace c
  | CC.lowerDigitDash, c => ('a' ≤ c && c ≤ 'z') || c.isDigit || c = '-'
  | CC.tT, c => c = 'T' || c = 't'

/-- One element of a compiled pattern.  `lit` is a literal run of
characters, `one` a single character from a class, `dotOne` the regex `.`,
`plus`/`star` the greedy `+`/`*` over a class (the `Bool` marks a
capturing group).  `tryk cap lo k` is internal to the matcher: it denotes
the greedy attempt of the current quantifier at repetition length `k`,
shrinking towards the lower bound `lo`. -/
inductive Atom where
  | lit : List Char → Atom
  | one : CC → Atom
  | dotOne : Atom
  | plus : CC → Bool → Atom
  | star : CC → Bool → Atom
  | tryk : Bool → Nat → Nat → Atom
deriving DecidableEq, Repr

/-- Length of the maximal prefix of `s` whose characters are all in `cc`. -/
def runLen (cc : CC) : List Char → Nat
  | [] => 0
  | c :: cs => if ccMem cc c then runLen cc cs + 1 else 0

/-- Backtracking matcher for a pattern anchored at the start of `s`.
Returns the list of captured groups and the number of characters
consumed.  Greedy quantifiers try the longest repetition first and
backtrack, exactly as Python `re` does.  The `fuel` argument only makes
the recursion structural; `fuelFor` below always supplies enough, since
every recursive call either consumes one atom or decrements the
repetition length of the head quantifier. -/
def mseq : Nat → List Atom → List Char → Option (List (List Char) × Nat)
  | 0, _, _ => none
  | _ + 1, [], _ => some ([], 0)
  | f + 1, Atom.lit l :: rest, s =>
      if l.isPrefixOf s then
        (mseq f rest (s.drop l.length)).map (fun r => (r.1, l.length + r.2))
      else none
  | f + 1, Atom.one cc :: rest, s =>
      match s with
      | [] => none
      | c :: s2 =>
          if ccMem cc c then (mseq f rest s2).map (fun r => (r.1, 1 + r.2))
          else none
  | f + 1, Atom.dotOne :: rest, s =>
      match s with
      | [] => none
      | c :: s2 =>
          if c ≠ '\n' then (mseq f rest s2).map (fun r => (r.1, 1 + r.2))
          else none
  | f + 1, Atom.plus cc cap :: rest, s =>
      mseq f (Atom.tryk cap 1 (runLen cc s) :: rest) s
  | f + 1, Atom.star cc cap :: rest, s =>
      mseq f (Atom.tryk cap 0 (runLen cc s) :: rest) s
  | f + 1, Atom.tryk cap lo k :: rest, s =>
      if k < lo then none
      else
        match mseq f rest (s.drop k) with
        | some (g, n) => some ((if cap then [s.take k] else []) ++ g, k + n)
        | none => if k = 0 then none else mseq f (Atom.tryk cap lo (k - 1) :: rest) s

/-- A fuel amount sufficient for `mseq` on `atoms` against `s`. -/
def fuelFor (atoms : List Atom) (s : List Char) : Nat :=
  (atoms.length + 2) * (s.length + 2)

/-- Python `re.search`: try the pattern at each position, leftmost first.
On success returns the captured groups, the length of the match and the
suffix of the text starting at the match. -/
def msearch (atoms : List Atom) : List Char → Option (List (List Char) × Nat × List Char)
  | [] =>
      (mseq (fuelFor atoms []) atoms []).map (fun r => (r.1, r.2, ([] : List Char)))
  | c :: s =>
      match mseq (fuelFor atoms (c :: s)) atoms (c :: s) with
      | some (g, n) => some (g, n, c :: s)
      | none => msearch atoms s

/-- Python `re.findall`: non-overlapping matches, scanning left to right,
resuming after the end of each match (advancing one character on an empty
match).  Each entry carries the captured groups and the full matched
substring.  The fuel is only for structural recursion; `s.length + 1`
always suffices since every step drops at least one character. -/
def mfindallF : Nat → List Atom → List Char → List (List (List Char) × List Char)
  | 0, _, _ => []
  | f + 1, atoms, s =>
      match msearch atoms s with
      | none => []
      | some (g, n, at_) =>
          (g, at_.take n) :: mfindallF f atoms (at_.drop (max n 1))

def mfindall (atoms : List Atom) (s : List Char) : List (List (List Char) × List Char) :=
  mfindallF (s.length + 1) atoms s

/-- Python's `needle in haystack` substring test. -/
def containsSub (needle : List Char) : List Char → Bool
  | [] => needle.isPrefixOf []
  | c :: t => needle.isPrefixOf (c :: t) || containsSub needle t

/-- Value of a digit string. -/
def digitsVal (cs : List Char) : Nat :=
  cs.foldl (fun a c => a * 10 + (c.toNat - '0'.toNat)) 0

/-- An exact decimal: the value `num / 10 ^ exp`.  All float values the
embedded pipeline produces are decimals of this form, so this models
them exactly while keeping every operation kernel-computable. -/
structure Dec where
  num : ℤ
  exp : Nat
deriving DecidableEq, Repr

/-- The rational value of a decimal. -/
def Dec.val (d : Dec) : ℚ := (d.num : ℚ) / (10 : ℚ) ^ d.exp

/-- Exact product of two decimals. -/
def Dec.mul (a b : Dec) : Dec := ⟨a.num * b.num, a.exp + b.exp⟩

/-- Python `float(s)` for the strings the source's captures can produce
(matches of `[0-9.]+` or `[0-9.-]+`): an optional leading minus sign,
then digits with at most one decimal point and at least one digit.
Anything else (a stray dash, a second dot, a bare sign or dot) raises
`ValueError`, modelled as `none`. -/
def pyFloat? (cs : List Char) : Option Dec :=
  let neg : Bool := match cs with | '-' :: _ => true | _ => false
  let r : List Char := match cs with | '-' :: t => t | _ => cs
  let intPart := r.takeWhile Char.isDigit
  let rest := r.drop intPart.length
  let mk : List Char → List Char → Option Dec := fun ip fp =>
    if ip.isEmpty && fp.isEmpty then none
    else
      let m : ℤ := (digitsVal (ip ++ fp) : ℤ)
      some ⟨if neg then -m else m, fp.length⟩
  match rest with
  | [] => mk intPart []
  | '.' :: frac => if frac.all Char.isDigit then mk intPart frac else none
  | _ => none

/-- Round the rational `a / b` (with `b > 0`) to the nearest integer,
ties to even — the rounding of Python's `round`.  (The source only ever
rounds values that are not exact ties, so the tie rule never matters for
the claims.) -/
def roundHalfEvenDiv (a b : ℤ) : ℤ :=
  let q := a.ediv b
  let r := a.emod b
  if 2 * r < b then q
  else if b < 2 * r then q + 1
  else if q.emod 2 = 0 then q else q + 1

/-- Python `round(d, k)` on the exact decimal model. -/
def pyRoundDec (k : Nat) (d : Dec) : Dec :=
  ⟨roundHalfEvenDiv (d.num * (10 : ℤ) ^ k) ((10 : ℤ) ^ d.exp), k⟩

/-! ## The extraction patterns of parse_buf and solve_image

Each of the following is a transcription of one regular expression of
src/astroprobe.py into the matcher's pattern language. -/

/-- Pattern of the regex: Field size: ([0-9.]+) x ([0-9.]+) -/
def fieldSizeP : List Atom :=
  [Atom.lit "Field size: ".data, Atom.plus CC.digitDot true,
   Atom.lit " x ".data, Atom.plus CC.digitDot true]

/-- Pattern of: Field center: \(RA,Dec\) = \(([0-9.-]+), ([0-9.-]+)\) deg.
(the final unescaped dot matches any character except newline). -/
def fieldCenterP : List Atom :=
  [Atom.lit "Field center: (RA,Dec) = (".data, Atom.plus CC.digitDotDash true,
   Atom.lit ", ".data, Atom.plus CC.digitDotDash true,
   Atom.lit ") deg".data, Atom.dotOne]

/-- Pattern of: pixel scale ([0-9.]+) arcsec/pix -/
def pixelScaleP : List Atom :=
  [Atom.lit "pixel scale ".data, Atom.plus CC.digitDot true,
   Atom.lit " arcsec/pix".data]

/-- Pattern of: [Tt]he constellation (.+) -/
def constellationP : List Atom :=
  [Atom.one CC.tT, Atom.lit "he constellation ".data, Atom.plus CC.anyNoNl true]

/-- Pattern of: The star (.+) -/
def starP : List Atom :=
  [Atom.lit "The star ".data, Atom.plus CC.anyNoNl true]

/-- Pattern of: (IC \d+.*) — the group spans the whole match, so the
capture is the matched substring itself. -/
def icP : List Atom :=
  [Atom.lit "IC ".data, Atom.plus CC.digit false, Atom.star CC.anyNoNl false]

/-- Pattern of: (NGC \d+.*) -/
def ngcP : List Atom :=
  [Atom.lit "NGC ".data, Atom.plus CC.digit false, Atom.star CC.anyNoNl false]

/-- Pattern of: Field \d+: solved with index index-([a-z0-9-]+).\S+endian.fits.
(the three unescaped dots each match any character except newline). -/
def indexP : List Atom :=
  [Atom.lit "Field ".data, Atom.plus CC.digit false,
   Atom.lit ": solved with index index-".data, Atom.plus CC.lowerDigitDash true,
   Atom.dotOne, Atom.plus CC.nonSpace false,
   Atom.lit "endian".data, Atom.dotOne, Atom.lit "fits".data, Atom.dotOne]

/-- Pattern of: simplexy: found (\d+) sources -/
def sourcesP : List Atom :=
  [Atom.lit "simplexy: found ".data, Atom.plus CC.digit true,
   Atom.lit " sources".data]

/-- The solver's failure marker checked by solve_image. -/
def didNotSolve : List Char := "Did not solve".data

/-- The parsed solver report built by parse_buf (src/astroprobe.py lines
50-64).  The three positional fields are mandatory; absence of the others
is not an error. -/
structure Report where
  fov : Dec × Dec
  field_center_ra : Dec
  field_center_dec : Dec
  arcsec_pp : Dec
  constellations : List String
  stars : List String
  ic : List String
  ngc : List String
  index : Option String
deriving DecidableEq, Repr

/-- A failed `re.search` returns `None`, whose `.groups()` call raises
`AttributeError`. -/
def searchGroups (atoms : List Atom) (s : List Char) : Except PyErr (List (List Char)) :=
  match msearch atoms s with
  | none => Except.error PyErr.attributeError
  | some (g, _, _) => Except.ok g

/-- Python `float(...)` on a capture, raising `ValueError` on a
malformed number. -/
def toFloat (cs : List Char) : Except PyErr Dec :=
  match pyFloat? cs with
  | none => Except.error PyErr.valueError
  | some q => Except.ok q

/-- Embedding of `parse_buf` (src/astroprobe.py lines 50-64).  The
extractions run in source order, so the first missing mandatory field
determines the raised error; the optional index extraction wraps its
`AttributeError` in `try`/`except` (modelled by `Option.map`). -/
def parse_buf (b : String) : Except PyErr Report := do
  let s := b.data
  let gs ← searchGroups fieldSizeP s
  let fovW ← toFloat (gs.getD 0 [])
  let fovH ← toFloat (gs.getD 1 [])
  let gc ← searchGroups fieldCenterP s
  let ra ← toFloat (gc.getD 0 [])
  let dec ← toFloat (gc.getD 1 [])
  let gp ← searchGroups pixelScaleP s
  let pp ← toFloat (gp.getD 0 [])
  let cons := (mfindall constellationP s).map (fun e => String.mk (e.1.getD 0 []))
  let strs := (mfindall starP s).map (fun e => String.mk (e.1.getD 0 []))
  let ics := (mfindall icP s).map (fun e => String.mk e.2)
  let ngcs := (mfindall ngcP s).map (fun e => String.mk e.2)
  let idx := (msearch indexP s).map (fun r => String.mk (r.1.getD 0 []))
  Except.ok {
    fov := (fovW, fovH), field_center_ra := ra, field_center_dec := dec,
    arcsec_pp := pp, constellations := cons, stars := strs,
    ic := ics, ngc := ngcs, index := idx }

deriving instance DecidableEq for Except

/-! ## Result reconciliation (solve_image, src/astroprobe.py lines 100-147) -/

/-- The FITS header mapping returned by `fitsio.read_header`, restricted
to the keys the pipeline reads.  A `none` field is an absent key: reading
it with `[...]` raises `KeyError`, while `.get` supplies a default. -/
structure FitsHeader where
  RA : Option Dec
  DEC : Option Dec
  OBJECT : Option String
  NAXIS1 : Option Dec
  NAXIS2 : Option Dec
  SECPIX1 : Option Dec
  SECPIX2 : Option Dec
deriving DecidableEq, Repr

/-- The empty mapping, as produced when `fitsio.read_header` raises
`OSError` (src/astroprobe.py lines 99-102). -/
def FitsHeader.empty : FitsHeader :=
  ⟨none, none, none, none, none, none, none⟩

/-- The header summary `rv["hdr"]` of solve_image. -/
structure Hdr where
  loc_ra : Dec
  loc_dec : Dec
  obj : String
  fov : Dec × Dec
deriving DecidableEq, Repr

/-- One component of the header field-of-view:
`round(naxis * secpix / 3600, 6)` (src/astroprobe.py lines 131-134),
computed exactly and rounded half-to-even to six decimals. -/
def fovComponent (naxis secpix : Dec) : Dec :=
  let prod := Dec.mul naxis secpix
  ⟨roundHalfEvenDiv (prod.num * (10 : ℤ) ^ 6) ((10 : ℤ) ^ prod.exp * 3600), 6⟩

/-- Embedding of the `rv["hdr"]` construction of solve_image
(src/astroprobe.py lines 124-137): the whole summary is built inside one
`try`/`except KeyError`, so a single absent key among `DEC`, `RA`,
`NAXIS1`, `SECPIX1`, `NAXIS2`, `SECPIX2` drops the summary entirely,
while `OBJECT` is read with `.get("OBJECT", "")` and so never raises. -/
def mkHdr (h : FitsHeader) : Option Hdr := do
  let dec ← h.DEC
  let ra ← h.RA
  let n1 ← h.NAXIS1
  let p1 ← h.SECPIX1
  let n2 ← h.NAXIS2
  let p2 ← h.SECPIX2
  some { loc_ra := ra, loc_dec := dec, obj := h.OBJECT.getD "",
         fov := (fovComponent n1 p1, fovComponent n2 p2) }

/-- The result dictionary `rv` of solve_image.  `solved?` is the
`"solved"` key: `none` models the key being absent from the dictionary
(as happens for the transcript records of `main`), in which case looking
it up raises `KeyError`. -/
structure SolveRec where
  file : String
  solve_time : Dec
  solved? : Option Bool
  hdr : Option Hdr
  sources : Option Nat
  report : Option Report
deriving DecidableEq, Repr

/-- The optional source count: `re.search("simplexy: found (\d+) sources",
out)` followed by `int(...)` (src/astroprobe.py lines 117, 139-140). -/
def sourcesOf (solver_out : String) : Option Nat :=
  (msearch sourcesP solver_out.data).map (fun r => digitsVal (r.1.getD 0 []))

/-- Embedding of the result-reconciliation tail of solve_image
(src/astroprobe.py lines 117-147): build the base record with
`solved=False`, the optional header summary and the optional source
count; if the output contains "Did not solve" return it as is; otherwise
set `solved=True` and merge in `parse_buf`'s report — whose exception, if
it raises, propagates out of solve_image uncaught. -/
def reconcile (img : String) (elapsed : Dec) (solver_out : String)
    (fits_header : FitsHeader) : Except PyErr SolveRec :=
  let base : SolveRec := {
    file := img, solve_time := pyRoundDec 3 elapsed, solved? := some false,
    hdr := mkHdr fits_header, sources := sourcesOf solver_out, report := none }
  if containsSub didNotSolve solver_out.data then Except.ok base
  else
    match parse_buf solver_out with
    | Except.error e => Except.error e
    | Except.ok rep => Except.ok { base with solved? := some true, report := some rep }

/-- Looking up `solve_res["solved"]` (src/astroprobe.py line 172):
raises `KeyError` when the key is absent. -/
def getSolved (r : SolveRec) : Except PyErr Bool :=
  match r.solved? with
  | none => Except.error PyErr.keyError
  | some b => Except.ok b

/-! ## Solver command line (solve_image, src/astroprobe.py lines 87-98) -/

/-- A Python value passed as a solver option.  `bool true` is the object
`True`, the only value for which `v is True` holds. -/
inductive PyVal where
  | bool : Bool → PyVal
  | str : String → PyVal
  | int : ℤ → PyVal
deriving DecidableEq, Repr

/-- Python `str(v)` for the option values modelled. -/
def PyVal.render : PyVal → String
  | PyVal.bool b => if b then "True" else "False"
  | PyVal.str s => s
  | PyVal.int n => toString n

/-- Python `k.replace("_", "-")`. -/
def dashify (k : String) : String :=
  String.map (fun c => if c = '_' then '-' else c) k

/-- The tokens one `kwargs` item contributes, from the loop body of
solve_image (src/astroprobe.py lines 90-96): rewrite underscores to
dashes, pick the dash prefix by name length, and emit a bare flag for
the value `True` (`v is True`) or a name/value pair otherwise. -/
def optTokens (kv : String × PyVal) : List String :=
  let k := dashify kv.1
  let d := if k.length = 1 then "-" else "--"
  match kv.2 with
  | PyVal.bool true => [d ++ k]
  | v => [d ++ k, v.render]

/-- Embedding of the argument construction of solve_image
(src/astroprobe.py lines 87-98): the fixed head, then the loop over
`kwargs.items()` appending each item's tokens, then the image path. -/
def solver_args_for (wd img : String) (kwargs : List (String × PyVal)) : List String :=
  let base := ["solve-field", "--dir", wd, "--temp-dir", wd]
  let withOpts := kwargs.foldl (fun acc kv => acc ++ optTokens kv) base
  withOpts ++ [img]

/-! ## Temporary-directory cleanup (src/astroprobe.py lines 37-47, 108-112) -/

/-- A file in the scoped temporary working directory.  `deletable` says
whether `os.unlink` succeeds on it; when it does not, the `OSError` is
swallowed by rm_rf and the file stays. -/
structure TmpFile where
  name : String
  content : String
  deletable : Bool
deriving DecidableEq, Repr

/-- Embedding of rm_rf (src/astroprobe.py lines 37-47): unlink every
file, swallowing per-file errors; then `removedirs`, which removes the
directory only if it is now empty and whose error is also swallowed.
`none` means the directory no longer exists; `some fs` means it survived
with the files `fs` still in it.  The function is total: no cleanup
failure is ever propagated. -/
def rm_rf (d : List TmpFile) : Option (List TmpFile) :=
  let rem := d.filter (fun f => !f.deletable)
  if rem.isEmpty then none else some rem

/-- Embedding of the post-run branch of solve_image (src/astroprobe.py
lines 108-112): with `save_temps` the captured output is written to
`solver.txt` inside the directory, which is kept; otherwise the
directory is deleted best-effort by rm_rf. -/
def cleanup (save_temps : Bool) (wd : List TmpFile) (solver_out : String) :
    Option (List TmpFile) :=
  if save_temps then some (wd ++ [⟨"solver.txt", solver_out, true⟩])
  else rm_rf wd

/-! ## The per-file solve and the batch loop (src/astroprobe.py
lines 67-147 and 150-176) -/

/-- The outside world of one batch run: the FITS-header reader
(`fitsio.read_header`), the solver subprocess (`subprocess.run`, giving
captured stdout and elapsed wall time, or failing to start), the
transcript reader of the test-file mode, and the name of the temporary
working directory. -/
structure Env where
  readHeader : String → Except PyErr FitsHeader
  launch : List String → Except PyErr (String × Dec)
  readFile : String → String
  wd : String

/-- Embedding of solve_image (src/astroprobe.py lines 67-147) for the
value it returns: build the command line, read the FITS header catching
only `OSError` (an empty mapping then), run the solver — a launch
failure propagates, nothing catches it — and reconcile the captured
output.  The filesystem side effects of the run (temporary directory
handling) are modelled separately by `cleanup`. -/
def solve_image_m (env : Env) (img : String) (kwargs : List (String × PyVal)) :
    Except PyErr SolveRec :=
  let args := solver_args_for env.wd img kwargs
  let hres : Except PyErr FitsHeader :=
    match env.readHeader img with
    | Except.error PyErr.osError => Except.ok FitsHeader.empty
    | r => r
  match hres with
  | Except.error e => Except.error e
  | Except.ok fits_header =>
    match env.launch args with
    | Except.error e => Except.error e
    | Except.ok (solver_out, elapsed) => reconcile img elapsed solver_out fits_header

/-- The keyword arguments `main` passes to solve_image:
`guess_scale=True` (src/astroprobe.py line 167). -/
def mainKwargs : List (String × PyVal) := [("guess_scale", PyVal.bool true)]

/-- The record built in test-file (transcript) mode: the parsed report
plus `file` and `solve_time=0.0`, and nothing else — in particular no
`"solved"` key (src/astroprobe.py lines 161-165). -/
def test_record (f : String) (rep : Report) : SolveRec :=
  { file := f, solve_time := ⟨0, 0⟩, solved? := none,
    hdr := none, sources := none, report := some rep }

/-- Embedding of the batch loop of `main` (src/astroprobe.py lines
159-173): for each file in order, build its record (by parsing the
transcript in test-file mode, by solve_image otherwise), look up its
`"solved"` key, and append it to the output when that key is true or the
verbosity count exceeds 1.  Any exception raised inside the loop
propagates and aborts the whole batch (discarding all records, since the
output is only written after the loop). -/
def main_loop (env : Env) (test_file : Bool) (verbose : Nat) :
    List String → Except PyErr (List SolveRec)
  | [] => Except.ok []
  | f :: rest =>
    let rres : Except PyErr SolveRec :=
      if test_file then
        match parse_buf (env.readFile f) with
        | Except.error e => Except.error e
        | Except.ok rep => Except.ok (test_record f rep)
      else solve_image_m env f mainKwargs
    match rres with
    | Except.error e => Except.error e
    | Except.ok r =>
      match getSolved r with
      | Except.error e => Except.error e
      | Except.ok s =>
        match main_loop env test_file verbose rest with
        | Except.error e => Except.error e
        | Except.ok rs => Except.ok (if s || decide (verbose > 1) then r :: rs else rs)

/-! ## Support definitions for the claims -/

/-- Whether an `Except` value is a success (a Python call that returned
rather than raised). -/
def exceptIsOk {ε α : Type} (x : Except ε α) : Bool :=
  match x with
  | Except.ok _ => true
  | Except.error _ => false

/-- The success value of an `Except`, with an inert placeholder on the
error side (only ever applied to values known to be successes). -/
def okD (x : Except PyErr SolveRec) : SolveRec :=
  match x with
  | Except.ok r => r
  | Except.error _ =>
      { file := "", solve_time := ⟨0, 0⟩, solved? := none,
        hdr := none, sources := none, report := none }

/-- The solver text of the spec's worked parsing example. -/
def c7text : String :=
  "Field size: 1.5 x 1.2 degrees\nField center: (RA,Dec) = (10.5, -20.25) deg.\n...pixel scale 1.2 arcsec/pix...\nThe star Polaris\nthe constellation Ursa Minor\n"

/-- The report `parse_buf` extracts from `c7text` (the decimals read
1.5, 1.2, 10.5, -20.25 and 1.2). -/
def c7report : Report :=
  { fov := (⟨15, 1⟩, ⟨12, 1⟩), field_center_ra := ⟨105, 1⟩,
    field_center_dec := ⟨-2025, 2⟩, arcsec_pp := ⟨12, 1⟩,
    constellations := ["Ursa Minor"], stars := ["Polaris"],
    ic := [], ngc := [], index := none }

/-- A solver text that contains the failure marker together with fully
parseable mandatory fields. -/
def bothText : String := c7text ++ "Did not solve\n"

/-- A batch environment in which every header read yields an empty
mapping, the solver runs (unsolved) for every image except `"b"`, and
the solver process for `"b"` cannot be started. -/
def env3 : Env :=
  { readHeader := fun _ => Except.ok FitsHeader.empty,
    launch := fun args =>
      if args.getLast? = some "b" then Except.error PyErr.fileNotFoundError
      else Except.ok ("Did not solve", ⟨1, 0⟩),
    readFile := fun _ => "",
    wd := "/tmp/astrometry_model" }

/-- The environment of the transcript-mode runs: every input file reads
back as the well-formed transcript `c7text`. -/
def env10 : Env := { env3 with readFile := fun _ => c7text }

/-- The record `solve_image` produces for `"a"` under `env3`: returned,
unsolved. -/
def recA : SolveRec :=
  { file := "a", solve_time := ⟨1000, 3⟩, solved? := some false,
    hdr := none, sources := none, report := none }

/-- A header mapping holding the six positional/geometry keys but no
`OBJECT`. -/
def hSixNoObj : FitsHeader :=
  { RA := some ⟨10, 0⟩, DEC := some ⟨20, 0⟩, OBJECT := none,
    NAXIS1 := some ⟨4000, 0⟩, NAXIS2 := some ⟨3000, 0⟩,
    SECPIX1 := some ⟨1, 0⟩, SECPIX2 := some ⟨1, 0⟩ }

/-- The record reconciled from an unsolved run over `hSixNoObj`: the
header summary is present, with an empty object name. -/
def recC4 : SolveRec :=
  { file := "f.fits", solve_time := ⟨0, 3⟩, solved? := some false,
    hdr := some { loc_ra := ⟨10, 0⟩, loc_dec := ⟨20, 0⟩, obj := "",
                  fov := (⟨1111111, 6⟩, ⟨833333, 6⟩) },
    sources := none, report := none }

/-- The header of the spec's field-of-view example: NAXIS1=4000,
SECPIX1=1.0, NAXIS2=3000, SECPIX2=1.0. -/
def hdr8 : FitsHeader :=
  { RA := some ⟨10, 0⟩, DEC := some ⟨20, 0⟩, OBJECT := some "M31",
    NAXIS1 := some ⟨4000, 0⟩, NAXIS2 := some ⟨3000, 0⟩,
    SECPIX1 := some ⟨10, 1⟩, SECPIX2 := some ⟨10, 1⟩ }

/-- The record reconciled from an unsolved run over `hdr8`. -/
def rec8 : SolveRec :=
  { file := "f.fits", solve_time := ⟨0, 3⟩, solved? := some false,
    hdr := some { loc_ra := ⟨10, 0⟩, loc_dec := ⟨20, 0⟩, obj := "M31",
                  fov := (⟨1111111, 6⟩, ⟨833333, 6⟩) },
    sources := none, report := none }

/-- A temporary working directory holding one file that `os.unlink`
cannot remove. -/
def wdStuck : List TmpFile := [⟨"field-indx.xyls", "", false⟩]

/-- A temporary working directory whose single file is deletable. -/
def wdClean : List TmpFile := [⟨"img.axy", "data", true⟩]

/-- Flag spelling per the specification: single-character names use a
single dash, longer names a double dash. -/
def claimC6Flag (name : String) : String :=
  if name.length = 1 then "-" ++ name else "--" ++ name

/-- Tokens of one option per the specification: a boolean-valued option
of `true` becomes a bare flag, any other value a name/value pair, with
underscores rewritten to dashes. -/
def claimC6Pair (name : String) (v : PyVal) : List String :=
  let flag := claimC6Flag (dashify name)
  if v = PyVal.bool true then [flag] else [flag, v.render]

/-- The full command line per the specification: the working directory
as both the solver's working and temp directory, the option tokens, and
the image path as the final positional argument. -/
def claimC6Tokens (wd img : String) (kwargs : List (String × PyVal)) : List String :=
  ["solve-field", "--dir", wd, "--temp-dir", wd]
    ++ (kwargs.map (fun kv => claimC6Pair kv.1 kv.2)).flatten ++ [img]

/-! ## Shared lemmas -/

/-- A record returned (not raised) by `reconcile` always carries a
`"solved"` key. -/
theorem reconcile_ok_solved {img : String} {t : Dec} {out : String}
    {h : FitsHeader} {r : SolveRec}
    (hr : reconcile img t out h = Except.ok r) : ∃ b, r.solved? = some b := by
  unfold reconcile at hr
  split at hr
  · cases hr; exact ⟨false, rfl⟩
  · split at hr
    · cases hr
    · cases hr; exact ⟨true, rfl⟩

/-- A record returned by `reconcile` carries exactly the header summary
`mkHdr` builds from the metadata mapping. -/
theorem reconcile_ok_hdr {img : String} {t : Dec} {out : String}
    {h : FitsHeader} {r : SolveRec}
    (hr : reconcile img t out h = Except.ok r) : r.hdr = mkHdr h := by
  unfold reconcile at hr
  split at hr
  · cases hr; rfl
  · split at hr
    · cases hr
    · cases hr; rfl

/-- A record returned by `solve_image` always carries a `"solved"` key. -/
theorem solve_ok_solved {env : Env} {img : String} {kw : List (String × PyVal)}
    {r : SolveRec} (hr : solve_image_m env img kw = Except.ok r) :
    ∃ b, r.solved? = some b := by
  unfold solve_image_m at hr
  dsimp only at hr
  split at hr
  · cases hr
  · split at hr
    · cases hr
    · exact reconcile_ok_solved hr

/-- The header summary is present exactly when the six keys read with a
raising lookup are all present. -/
theorem mkHdr_isSome (h : FitsHeader) :
    (mkHdr h).isSome = (h.RA.isSome && h.DEC.isSome && h.NAXIS1.isSome &&
      h.NAXIS2.isSome && h.SECPIX1.isSome && h.SECPIX2.isSome) := by
  rcases h with ⟨ra, dec, obj, n1, n2, p1, p2⟩
  cases ra <;> cases dec <;> cases n1 <;> cases n2 <;> cases p1 <;> cases p2 <;>
    simp [mkHdr]

/-- The object name of a built header summary is the `OBJECT` key with
the empty-string default of `.get`. -/
theorem mkHdr_obj {h : FitsHeader} {hd : Hdr} (hm : mkHdr h = some hd) :
    hd.obj = h.OBJECT.getD "" := by
  rcases h with ⟨ra, dec, obj, n1, n2, p1, p2⟩
  cases ra <;> cases dec <;> cases n1 <;> cases n2 <;> cases p1 <;> cases p2 <;>
    simp [mkHdr] at hm
  all_goals simp [← hm]

/-- Each option's command-line tokens agree with the specification's
description of them. -/
theorem optTokens_eq_pair (kv : String × PyVal) :
    optTokens kv = claimC6Pair kv.1 kv.2 := by
  rcases kv with ⟨name, v⟩
  cases v with
  | bool b =>
      cases b <;> simp [optTokens, claimC6Pair, claimC6Flag] <;>
        by_cases hc : (dashify name).length = 1 <;> simp [hc]
  | str s =>
      simp [optTokens, claimC6Pair, claimC6Flag]
      by_cases hc : (dashify name).length = 1 <;> simp [hc]
  | int n =>
      simp [optTokens, claimC6Pair, claimC6Flag]
      by_cases hc : (dashify name).length = 1 <;> simp [hc]

/-- The appending loop of the argument builder is the concatenation of
the per-option token lists. -/
theorem foldl_optTokens (l : List (String × PyVal)) (acc : List String) :
    l.foldl (fun acc kv => acc ++ optTokens kv) acc
      = acc ++ (l.map optTokens).flatten := by
  induction l generalizing acc with
  | nil => simp
  | cons kv rest ih => simp [List.foldl, ih]

/-! ## The claims -/

/-- Claim C1, counterexample.  A solver text without the failure marker
but missing the mandatory field-size line does NOT yield a returned
`solved=false` record: `reconcile` raises the parser's `AttributeError`
to the caller, against the claim that the parse failure is contained. -/
theorem c1_counterexample :
    reconcile "img.fits" ⟨0, 0⟩ "pixel scale 1.2 arcsec/pix" FitsHeader.empty
      = Except.error PyErr.attributeError := by decide

/-- Claim C1, amended.  For every solver text that does not contain
"Did not solve" and on which the Report Parser fails (a mandatory field
is missing), the Result Reconciler does not return a result at all: the
parser's exception propagates to the caller unchanged. -/
theorem c1_thm (img : String) (t : Dec) (out : String) (h : FitsHeader)
    (e : PyErr) (hm : containsSub didNotSolve out.data = false)
    (hp : parse_buf out = Except.error e) :
    reconcile img t out h = Except.error e := by
  simp [reconcile, hm, hp]

/-- Claim C1, witness: a concrete text with a field size but no field
center, on which the amended claim's hypotheses hold. -/
theorem c1_witness :
    containsSub didNotSolve "Field size: 2.0 x 1.0 degrees".data = false ∧
    parse_buf "Field size: 2.0 x 1.0 degrees" = Except.error PyErr.attributeError ∧
    reconcile "w.fits" ⟨5, 1⟩ "Field size: 2.0 x 1.0 degrees" FitsHeader.empty
      = Except.error PyErr.attributeError :=
  ⟨by decide, by decide,
   c1_thm "w.fits" ⟨5, 1⟩ "Field size: 2.0 x 1.0 degrees" FitsHeader.empty
     PyErr.attributeError (by decide) (by decide)⟩

/-- Claim C2.  A solver text containing "Did not solve" always
reconciles to a returned record with `solved=false` (the parser is not
even consulted), and a returned record has `solved=true` exactly when
the text lacks the failure marker and all mandatory fields extract
successfully. -/
theorem c2_thm (img : String) (t : Dec) (out : String) (h : FitsHeader) :
    (containsSub didNotSolve out.data = true →
      reconcile img t out h = Except.ok {
        file := img, solve_time := pyRoundDec 3 t, solved? := some false,
        hdr := mkHdr h, sources := sourcesOf out, report := none }) ∧
    (∀ r, reconcile img t out h = Except.ok r →
      (r.solved? = some true ↔
        (containsSub didNotSolve out.data = false ∧
          exceptIsOk (parse_buf out) = true))) := by
  constructor
  · intro hm
    simp [reconcile, hm]
  · intro r hr
    by_cases hm : containsSub didNotSolve out.data = true
    · simp [reconcile, hm] at hr
      simp [← hr, hm]
    · have hm2 : containsSub didNotSolve out.data = false := by
        simpa using hm
      cases hp : parse_buf out with
      | error e => simp [reconcile, hm2, hp] at hr
      | ok rep =>
          simp [reconcile, hm2, hp] at hr
          simp [← hr, hm2, hp, exceptIsOk]

/-- Claim C2, witness: a text containing both the failure marker and
fully parseable mandatory fields still reconciles to `solved=false`. -/
theorem c2_witness :
    reconcile "b.fits" ⟨0, 0⟩ bothText FitsHeader.empty = Except.ok {
      file := "b.fits", solve_time := pyRoundDec 3 ⟨0, 0⟩, solved? := some false,
      hdr := mkHdr FitsHeader.empty, sources := sourcesOf bothText,
      report := none } :=
  (c2_thm "b.fits" ⟨0, 0⟩ bothText FitsHeader.empty).1 (by decide)

/-- Claim C3, counterexample.  In a batch of three files whose second
file's solver process cannot be started, the launch error escapes the
batch loop: the run aborts with the exception instead of producing a
three-record collection with the second record marked failed. -/
theorem c3_counterexample :
    main_loop env3 false 2 ["a", "b", "c"] = Except.error PyErr.fileNotFoundError := by
  decide

/-- Claim C3, amended.  A process-launch failure is not recorded: the
error raised by `solve_image` for the failing file propagates out of the
batch loop (aborting it and discarding all records), whatever files
precede or follow it. -/
theorem c3_thm (env : Env) (verbose : Nat) (pre : List String) (f : String)
    (post : List String) (e : PyErr)
    (hpre : ∀ g ∈ pre, exceptIsOk (solve_image_m env g mainKwargs) = true)
    (hf : solve_image_m env f mainKwargs = Except.error e) :
    main_loop env false verbose (pre ++ f :: post) = Except.error e := by
  induction pre with
  | nil =>
      simp only [List.nil_append]
      unfold main_loop
      simp [hf]
  | cons g rest ih =>
      have hg : exceptIsOk (solve_image_m env g mainKwargs) = true :=
        hpre g (List.mem_cons_self g rest)
      obtain ⟨r, hr⟩ : ∃ r, solve_image_m env g mainKwargs = Except.ok r := by
        cases hh : solve_image_m env g mainKwargs with
        | error e2 => simp [exceptIsOk, hh] at hg
        | ok r => exact ⟨r, rfl⟩
      obtain ⟨b, hb⟩ := solve_ok_solved hr
      have htail : main_loop env false verbose (rest ++ f :: post) = Except.error e :=
        ih (fun x hx => hpre x (List.mem_cons_of_mem g hx))
      simp only [List.cons_append]
      unfold main_loop
      simp [hr, getSolved, hb, htail]

/-- Claim C3, witness: the amended claim applied to the concrete
three-file batch of `env3`. -/
theorem c3_witness :
    main_loop env3 false 0 (["a"] ++ "b" :: ["c"]) = Except.error PyErr.fileNotFoundError :=
  c3_thm env3 0 ["a"] "b" ["c"] PyErr.fileNotFoundError (by decide) (by decide)

/-- Claim C4, counterexample.  With the six positional/geometry keys
present but `OBJECT` absent, the reconciled record still contains a full
header summary (with an empty object name), against the claim that a
missing `OBJECT` key omits the summary. -/
theorem c4_counterexample :
    hSixNoObj.OBJECT = none ∧
    reconcile "f.fits" ⟨0, 0⟩ "Did not solve" hSixNoObj = Except.ok recC4 ∧
    recC4.hdr.isSome = true := by
  refine ⟨rfl, by decide, rfl⟩

/-- Claim C4, amended.  The header summary of a returned record is
present exactly when the keys RA, DEC, NAXIS1, NAXIS2, SECPIX1 and
SECPIX2 are all present — never a partial summary — while `OBJECT` is
optional and defaults to the empty string. -/
theorem c4_thm (img : String) (t : Dec) (out : String) (h : FitsHeader)
    (r : SolveRec) (hr : reconcile img t out h = Except.ok r) :
    (r.hdr.isSome = (h.RA.isSome && h.DEC.isSome && h.NAXIS1.isSome &&
        h.NAXIS2.isSome && h.SECPIX1.isSome && h.SECPIX2.isSome)) ∧
    (h.OBJECT = none → ∀ hd, r.hdr = some hd → hd.obj = "") := by
  have hh := reconcile_ok_hdr hr
  constructor
  · rw [hh, mkHdr_isSome]
  · intro hobj hd hhd
    rw [hh] at hhd
    rw [mkHdr_obj hhd, hobj]
    rfl

/-- Claim C4, witness: the amended claim applied to the header mapping
with the six keys and no `OBJECT`. -/
theorem c4_witness :
    (recC4.hdr.isSome = (hSixNoObj.RA.isSome && hSixNoObj.DEC.isSome &&
        hSixNoObj.NAXIS1.isSome && hSixNoObj.NAXIS2.isSome &&
        hSixNoObj.SECPIX1.isSome && hSixNoObj.SECPIX2.isSome)) ∧
    (hSixNoObj.OBJECT = none → ∀ hd, recC4.hdr = some hd → hd.obj = "") :=
  c4_thm "f.fits" ⟨0, 0⟩ "Did not solve" hSixNoObj recC4 (by decide)

/-- Claim C5, counterexample.  When the deletion of a file inside the
temporary working directory fails, the directory and that file still
exist after the `keepTemp=false` cleanup, against the claim that they
no longer exist on the filesystem. -/
theorem c5_counterexample :
    cleanup false wdStuck "solver output" = some wdStuck := by decide

/-- Claim C5, amended.  Cleanup is best-effort and total (no error is
ever propagated): with `keepTemp=false` the directory and its contents
are gone whenever every per-file deletion succeeds (a failed deletion
may leave the directory behind with the stuck files), and with
`keepTemp=true` the captured output is written to `solver.txt` inside
the directory, which is left intact. -/
theorem c5_thm (wd : List TmpFile) (out : String) :
    ((∀ f ∈ wd, f.deletable = true) → cleanup false wd out = none) ∧
    cleanup true wd out = some (wd ++ [⟨"solver.txt", out, true⟩]) := by
  constructor
  · intro hall
    have hfil : wd.filter (fun f => !f.deletable) = [] := by
      rw [List.filter_eq_nil_iff]
      intro a ha
      simp [hall a ha]
    simp [cleanup, rm_rf, hfil]
  · simp [cleanup]

/-- Claim C5, witness: the amended claim applied to a directory whose
single file is deletable. -/
theorem c5_witness :
    cleanup false wdClean "s" = none ∧
    cleanup true wdClean "s" = some (wdClean ++ [⟨"solver.txt", "s", true⟩]) :=
  ⟨(c5_thm wdClean "s").1 (by decide), (c5_thm wdClean "s").2⟩

/-- Claim C6.  For every option map, image path and working directory,
the command line solve_image builds equals the specification's
description: fixed head passing the working directory as both `--dir`
and `--temp-dir`, then per option a bare flag for the value `True` or a
name/value pair otherwise (single dash for one-character names, double
dash otherwise, underscores rewritten to dashes), then the image path as
the final positional argument. -/
theorem c6_thm (wd img : String) (kwargs : List (String × PyVal)) :
    solver_args_for wd img kwargs = claimC6Tokens wd img kwargs := by
  unfold solver_args_for claimC6Tokens
  dsimp only
  rw [foldl_optTokens]
  rw [funext optTokens_eq_pair]

set_option maxRecDepth 40000 in
/-- Claim C7.  On the spec's worked example text, `parse_buf` succeeds
with fov=[1.5, 1.2], field center (ra 10.5, dec -20.25), pixel scale
1.2, the star list ["Polaris"] and the constellation list
["Ursa Minor"], and no IC/NGC/index matches. -/
theorem c7_thm :
    parse_buf c7text = Except.ok c7report ∧
    c7report.fov.1.val = 3 / 2 ∧ c7report.fov.2.val = 6 / 5 ∧
    c7report.field_center_ra.val = 21 / 2 ∧
    c7report.field_center_dec.val = -81 / 4 ∧
    c7report.arcsec_pp.val = 6 / 5 ∧
    c7report.stars = ["Polaris"] ∧ c7report.constellations = ["Ursa Minor"] := by
  refine ⟨by decide, ?_, ?_, ?_, ?_, ?_, rfl, rfl⟩ <;> norm_num [c7report, Dec.val]

/-- Claim C8.  The header-summary field-of-view is
`(round(NAXIS1*SECPIX1/3600, 6), round(NAXIS2*SECPIX2/3600, 6))`: for
NAXIS1=4000, SECPIX1=1.0, NAXIS2=3000, SECPIX2=1.0 the reconciled record
carries the field-of-view (1.111111, 0.833333). -/
theorem c8_thm :
    reconcile "f.fits" ⟨0, 0⟩ "Did not solve" hdr8 = Except.ok rec8 ∧
    (Dec.mk 1111111 6).val = 1111111 / 1000000 ∧
    (Dec.mk 833333 6).val = 833333 / 1000000 := by
  refine ⟨by decide, ?_, ?_⟩ <;> norm_num [Dec.val]

/-- Claim C9, counterexample.  At verbosity count 1 — verbose mode, as
it already switches on informational logging — an unsolved record is
dropped from the output collection, against the claim that every record
is kept unconditionally under verbose mode. -/
theorem c9_counterexample :
    main_loop env3 false 1 ["a"] = Except.ok [] ∧
    solve_image_m env3 "a" mainKwargs = Except.ok recA ∧
    recA.solved? = some false :=
  ⟨by decide, by decide, rfl⟩

/-- Claim C9, amended.  When every file solves without raising, the
batch driver returns, in input order, exactly the records that are
marked solved or pass the keep-everything policy — which requires a
verbosity count greater than 1, not merely verbose mode. -/
theorem c9_thm (env : Env) (verbose : Nat) (files : List String)
    (hok : ∀ f ∈ files, exceptIsOk (solve_image_m env f mainKwargs) = true) :
    main_loop env false verbose files =
      Except.ok ((files.map (fun f => okD (solve_image_m env f mainKwargs))).filter
        (fun r => r.solved?.getD false || decide (verbose > 1))) := by
  induction files with
  | nil => simp [main_loop]
  | cons f rest ih =>
      have hg : exceptIsOk (solve_image_m env f mainKwargs) = true :=
        hok f (List.mem_cons_self f rest)
      obtain ⟨r, hr⟩ : ∃ r, solve_image_m env f mainKwargs = Except.ok r := by
        cases hh : solve_image_m env f mainKwargs with
        | error e2 => simp [exceptIsOk, hh] at hg
        | ok r => exact ⟨r, rfl⟩
      obtain ⟨b, hb⟩ := solve_ok_solved hr
      have htail := ih (fun x hx => hok x (List.mem_cons_of_mem f hx))
      unfold main_loop
      simp only [List.map_cons, List.filter_cons]
      simp [hr, getSolved, hb, htail, okD]

/-- Claim C9, witness: the amended claim applied to a one-file batch at
verbosity count 2, where the unsolved record is kept. -/
theorem c9_witness :
    main_loop env3 false 2 ["a"] =
      Except.ok ((["a"].map (fun f => okD (solve_image_m env3 f mainKwargs))).filter
        (fun r => r.solved?.getD false || decide (2 > 1))) :=
  c9_thm env3 2 ["a"] (by decide)

/-- Claim C10.  In transcript (test-file) mode, the record built from a
successfully parsed transcript has no `"solved"` key, so the inclusion
policy's lookup of that key raises `KeyError` and the batch aborts at
the first successfully parsed transcript file, whatever the verbosity. -/
theorem c10_thm (env : Env) (f : String) (rest : List String) (verbose : Nat)
    (rep : Report) (hp : parse_buf (env.readFile f) = Except.ok rep) :
    (test_record f rep).solved? = none ∧
    getSolved (test_record f rep) = Except.error PyErr.keyError ∧
    main_loop env true verbose (f :: rest) = Except.error PyErr.keyError := by
  refine ⟨rfl, rfl, ?_⟩
  unfold main_loop
  simp [hp, getSolved, test_record]

set_option maxRecDepth 40000 in
/-- Claim C10, witness: a concrete transcript-mode batch over the
well-formed transcript `c7text` aborts with `KeyError`. -/
theorem c10_witness :
    (test_record "t.txt" c7report).solved? = none ∧
    getSolved (test_record "t.txt" c7report) = Except.error PyErr.keyError ∧
    main_loop env10 true 0 ["t.txt"] = Except.error PyErr.keyError :=
  c10_thm env10 "t.txt" [] 0 c7report (by decide)
